import Mathlib

/-!
Verification of the Authenticated Model-Serving Core of biz-stratosphere
(ml-service). Shallow embedding of:

* `app/api/deps.py`   — JWKS cache (`get_jwks`), authenticator
  (`get_current_user`), RBAC (`RoleChecker.__call__`);
* `app/services/model_service.py` — `ModelService.load_model` and
  `ModelService.predict` (feature-schema enforcement, classifier/regressor
  dispatch, version string, fire-and-forget decision logging);
* `app/services/decision_logger.py` — `DecisionLogger.log_decision`.

Modelling conventions: Python dicts whose claims matter are structures with
`Option` fields; JSON dicts used as maps are association lists with
`List.lookup` semantics (first match wins, as in a dict with unique keys);
numeric feature/probability values are rationals; I/O outcomes (HTTP fetch,
`jwt.decode`, the audit-store write) are passed in as explicit outcome values
so that every code path of the Python source is a branch of a total Lean
function; exception control flow becomes `Except`. The SHA-256 digest and
`joblib` deserialization are opaque transformations supplied by the storage
environment, since no claim depends on their internals. Quote characters
inside Python message literals are elided; the messages remain pairwise
distinct exactly as in the source.
-/

/-! ## Authenticator state and inputs (`app/api/deps.py`) -/

/-- The unverified JWT header, as returned by `jwt.get_unverified_header`:
`alg` and `kid` are looked up with `.get`, hence optional. -/
structure TokenHeader where
  alg : Option String
  kid : Option String
deriving DecidableEq

/-- One JSON Web Key of the JWKS document. Only the `kid` field is inspected
by the source (`jwk.get("kid")`); the key material is irrelevant here because
the outcome of `jwt.decode` is an explicit input of the model. -/
structure Jwk where
  kid : Option String
deriving DecidableEq

/-- The JWKS document body: the list under the `keys` field
(`jwks.get("keys", [])`). -/
abbrev JwksBody := List Jwk

/-- The decoded token payload (claim set). `sub` and the role-bearing claims
are `.get`-accessed, hence optional; `app_metadata_role` is the `role` entry
nested under `app_metadata`, `none` when either level is absent. -/
structure Payload where
  sub : Option String
  user_role : Option String
  role : Option String
  app_metadata_role : Option String
deriving DecidableEq

/-- The externally observable failure of `get_current_user`: an
`HTTPException` with a status code and a client-visible detail string. -/
structure AuthError where
  status : Nat
  detail : String
deriving DecidableEq

/-- Outcome of the single network fetch attempted by `get_jwks` when its
cache is empty: a successful response whose JSON is `body`, a response with a
non-success HTTP status, or a raised exception (network error etc.). -/
inductive FetchResult where
  | success (body : JwksBody)
  | httpError (code : Nat)
  | exn (msg : String)
deriving DecidableEq

/-- `get_jwks` (deps.py lines 18-31). State-passing form: takes the current
process-wide `jwks_cache` and the outcome the fetch would have, returns the
new cache and the returned value. The source fetches only when the cache is
falsy, stores the body only on `resp.is_success`, catches every exception,
and finally returns the (possibly updated) cache. The function is total: no
failure of the fetch escapes it. -/
def get_jwks (cache : Option JwksBody) (fetch : FetchResult) :
    Option JwksBody × Option JwksBody :=
  match cache with
  | some c => (some c, some c)
  | none =>
    match fetch with
    | .success body => (some body, some body)
    | .httpError _ => (none, none)
    | .exn _ => (none, none)

/-- The key-selection loop of `get_current_user` (deps.py lines 52-57):
`key = None; if jwks: for jwk in jwks["keys"]: if jwk.get("kid") == kid: ...`.
An empty cache (`None`) yields no key. -/
def findKey (cache : Option JwksBody) (kid : String) : Option Jwk :=
  match cache with
  | none => none
  | some keys => keys.find? (fun j => j.kid = some kid)

/-- The body of the `try` block of `get_current_user` (deps.py lines 39-84):
every `raise ValueError(msg)` (and the inner `HTTPException` for a missing
`sub`, whose `str()` form is its status and detail) becomes `.error msg`.
`decodeOutcome` is the result `jwt.decode` would produce once reached:
`.error m` when signature, audience, issuer or expiry verification fails with
message `m`, `.ok payload` otherwise. -/
def authInner (h : TokenHeader) (cache : Option JwksBody)
    (decodeOutcome : Except String Payload) : Except String Payload :=
  if h.alg ≠ some "RS256" then
    .error "Invalid algorithm. Strict RS256 enforcement applied."
  else
    match h.kid with
    | none => .error "Missing kid in token header."
    | some kid =>
      if kid = "" then .error "Missing kid in token header."
      else
        match findKey cache kid with
        | none => .error "Key ID (kid) not found in JWKS."
        | some _ =>
          match decodeOutcome with
          | .error m => .error m
          | .ok payload =>
            match payload.sub with
            | none => .error "401: Invalid authentication credentials"
            | some _ => .ok payload

/-- `get_current_user` (deps.py lines 33-90). The enclosing
`except Exception as e` turns every failure of the inner block into an
`HTTPException` with status 401 and detail
`"Could not validate credentials: " + str(e)`. -/
def get_current_user (h : TokenHeader) (cache : Option JwksBody)
    (decodeOutcome : Except String Payload) : Except AuthError Payload :=
  match authInner h cache decodeOutcome with
  | .ok p => .ok p
  | .error m =>
    .error ⟨401, String.append "Could not validate credentials: " m⟩

/-- True when the authentication result is a failure carrying HTTP 401. -/
def fails401 : Except AuthError Payload → Bool
  | .error e => e.status == 401
  | .ok _ => false

/-! ## Access policy (`RoleChecker`, deps.py lines 92-112) -/

/-- Python `a or b` specialised to an optional string claim value: a missing
key (`None`) and an empty string are both falsy and fall through. -/
def pyOrStr (v : Option String) (next : String) : String :=
  match v with
  | some s => if s = "" then next else s
  | none => next

/-- Role resolution of `RoleChecker.__call__` (deps.py line 99):
`user.get("user_role") or user.get("role") or
 user.get("app_metadata", {}).get("role", "viewer")`. -/
def resolve_role (u : Payload) : String :=
  pyOrStr u.user_role (pyOrStr u.role (u.app_metadata_role.getD "viewer"))

/-- The effective role after the `authenticated`-sentinel rewrite
(deps.py lines 103-105). -/
def effective_role (u : Payload) : String :=
  let r := resolve_role u
  if r = "authenticated" then "viewer" else r

/-- The 403 failure of `RoleChecker.__call__`, carrying the resolved role and
the allowed set named in its detail. -/
structure RBACError where
  status : Nat
  role : String
  allowed : List String
deriving DecidableEq

/-- `RoleChecker.__call__` (deps.py lines 97-112): membership check of the
effective role against the allowed roles. -/
def roleChecker_call (allowed : List String) (u : Payload) :
    Except RBACError Payload :=
  let r := effective_role u
  if r ∈ allowed then .ok u else .error ⟨403, r, allowed⟩

/-- Modelled from the spec words of claim C5, for refinement comparison only
(not from the source): the `user_role` claim if present, else the `role`
claim, else the nested `app_metadata` role, else the literal `viewer`. -/
def resolve_role_spec (u : Payload) : String :=
  match u.user_role with
  | some s => s
  | none =>
    match u.role with
    | some s => s
    | none => u.app_metadata_role.getD "viewer"

/-! ## Model cache (`app/services/model_service.py`) -/

/-- The opaque deserialized predictor object. Capability probing
(`hasattr(model, "predict_proba")`, `hasattr(model, "feature_names_in_")`)
becomes explicit fields; `model.predict(df)[0]` and
`model.predict_proba(df)[0]` become functions of the single ordered row the
source builds. -/
structure MLModel where
  hasPredictProba : Bool
  featureNamesIn : Option (List String)
  predictRow : List (String × ℚ) → ℚ
  predictProbaRow : List (String × ℚ) → List ℚ

/-- The mutable state of a `ModelService` instance: `_loaded_models` and
`_model_hashes`, both dicts keyed by model name, modelled as association
lists (insert = prepend, lookup = first match; keys are inserted at most
once per name). -/
structure MSState where
  loaded : List (String × MLModel)
  hashes : List (String × String)

/-- The storage environment of `load_model`: local artifact bytes by name,
the MLflow registry by name, the SHA-256 digest and the `joblib`
deserialization as opaque functions of the artifact bytes. -/
structure Storage where
  localArtifact : String → Option (List Nat)
  mlflowModel : String → Option MLModel
  sha : List Nat → String
  deserialize : List Nat → MLModel

/-- `ModelService.load_model` (model_service.py lines 41-83). Returns the
model, the updated state, and the number of storage reads (artifact-byte or
registry accesses) performed by this call; a `ValueError` becomes `.error`.
The source order: cached name returns immediately; else the local `.pkl` is
read once (hashed from the exact bytes read, then deserialized) and cached
together with its digest; else the MLflow registry is tried, caching the
model without a digest; else the call fails. -/
def load_model (env : Storage) (σ : MSState) (name : String) :
    Except String (MLModel × MSState × Nat) :=
  match σ.loaded.lookup name with
  | some m => .ok (m, σ, 0)
  | none =>
    match env.localArtifact name with
    | some bytes =>
      let h := env.sha bytes
      let m := env.deserialize bytes
      .ok (m, ⟨(name, m) :: σ.loaded, (name, h) :: σ.hashes⟩, 1)
    | none =>
      match env.mlflowModel name with
      | some m => .ok (m, ⟨(name, m) :: σ.loaded, σ.hashes⟩, 1)
      | none =>
        .error (String.append (String.append "Model " name)
          " not found. Graceful fallback failed.")

/-- The hardcoded `_feature_schemas` table (model_service.py lines 26-29). -/
def featureSchemas (name : String) : Option (List String) :=
  if name = "churn_model" then
    some ["age", "tenure", "usage_frequency", "support_tickets",
          "last_purchase_days", "subscription_tier", "contract_length",
          "payment_delay"]
  else if name = "revenue_model" then
    some ["marketing_spend", "seasonality_index", "new_users",
          "active_users", "churn_rate", "avg_revenue_per_user",
          "economic_indicator"]
  else none

/-- The `reindex` step (model_service.py lines 106-108): when the model
recorded its trained feature names, the row is rebuilt in exactly that
column order, absent columns filled with 0. -/
def reindexRow (m : MLModel) (df : List (String × ℚ)) : List (String × ℚ) :=
  match m.featureNamesIn with
  | some cols => cols.map (fun c => (c, (df.lookup c).getD 0))
  | none => df

/-- Schema enforcement and row construction of `predict` (model_service.py
lines 91-108): with a declared schema, all missing required features are
collected and reported together (else the row holds exactly the required
features, in schema order); without a schema the input map is used as-is.
Either way the row is then reindexed to the model trained-feature order. -/
def buildDf (m : MLModel) (name : String) (features : List (String × ℚ)) :
    Except (List String) (List (String × ℚ)) :=
  match featureSchemas name with
  | some required =>
    let missing := required.filter (fun f => (features.lookup f).isNone)
    if missing ≠ [] then .error missing
    else
      .ok (reindexRow m (required.map (fun f => (f, (features.lookup f).getD 0))))
  | none => .ok (reindexRow m features)

/-- Python `int()` applied to an exact rational: truncation toward zero. -/
def pyInt (q : ℚ) : Int := q.num.tdiv q.den

/-- Python `max()` over the probability row; the empty case (on which the
source would raise `IndexError`) is given a default never relied upon. -/
def pyMax : List ℚ → ℚ
  | [] => 0
  | x :: xs => xs.foldl max x

/-- The failure surface of `predict`: the load failure (`ModelNotFound`) or
`SchemaValidationFailed` carrying the names of all missing required
features, exactly the information of the source message
`Schema Validation Failed. Missing required features: [...]`. -/
inductive PredictError where
  | modelNotFound (msg : String)
  | schemaValidationFailed (missing : List String)
deriving DecidableEq

/-- The dict returned by `predict` (model_service.py lines 147-155).
`shap_values` and `decision_id` are always `None` in this code path. -/
structure PredictionResult where
  prediction : ℚ
  probability : ℚ
  confidence : ℚ
  model_name : String
  model_version : String
  shap_values : Option Unit
  decision_id : Option Unit
deriving DecidableEq

/-- The try/except around the decision-logger handoff (model_service.py
lines 131-145): whatever the handoff raises is caught and reduced to a
warning; nothing flows into the returned result. -/
def handleLogEffect : Except String Unit → Unit
  | .ok _ => ()
  | .error _ => ()

/-- `ModelService.predict` (model_service.py lines 85-155). `logEffect` is
the outcome of the `decision_logger.log_decision` handoff (swallowed by the
source). The version string is read from `_model_hashes` after the load:
first 8 characters of the stored digest, else the fixed `1.0.0`. A model
exposing `predict_proba` is treated as a classifier: integer class code,
probability at index 1 when more than one class is reported else index 0,
confidence the row maximum; otherwise as a regressor with both sentinels
1.0. -/
def predict (env : Storage) (σ : MSState) (name : String)
    (features : List (String × ℚ)) (logEffect : Except String Unit) :
    Except PredictError (PredictionResult × MSState) :=
  match load_model env σ name with
  | .error msg => .error (.modelNotFound msg)
  | .ok (m, σ₁, _) =>
    match buildDf m name features with
    | .error missing => .error (.schemaValidationFailed missing)
    | .ok df =>
      let version :=
        match σ₁.hashes.lookup name with
        | some h => h.take 8
        | none => "1.0.0"
      let r :=
        if m.hasPredictProba then
          let probs := m.predictProbaRow df
          { prediction := ((pyInt (m.predictRow df) : Int) : ℚ)
            probability :=
              if probs.length > 1 then probs.getD 1 0 else probs.getD 0 0
            confidence := pyMax probs
            model_name := name
            model_version := version
            shap_values := none
            decision_id := none : PredictionResult }
        else
          { prediction := m.predictRow df
            probability := 1
            confidence := 1
            model_name := name
            model_version := version
            shap_values := none
            decision_id := none : PredictionResult }
      let _ := handleLogEffect logEffect
      .ok (r, σ₁)

/-! ## Decision logger (`app/services/decision_logger.py`) -/

/-- `DecisionLogger.log_decision` (decision_logger.py lines 35-77), reduced
to its control flow: with no configured engine it returns silently; with an
engine, any failure of serialization or of the database write
(`writeOutcome`) is caught, logged and swallowed. It never propagates an
error. -/
def log_decision (hasEngine : Bool) (writeOutcome : Except String Unit) :
    Except String Unit :=
  if hasEngine then
    match writeOutcome with
    | .ok _ => .ok ()
    | .error _ => .ok ()
  else .ok ()

/-! ## Concrete evaluation environment used by the witnesses -/

/-- A concrete classifier used to evaluate the embedding: predicted class 1,
no recorded trained feature names, and a two-entry probability row of
integral rationals chosen so that the entry at index 1 and the row maximum
differ (the row is not constrained to be a distribution by the embedding,
and integral values keep the witness kernel-evaluable). -/
def mW : MLModel where
  hasPredictProba := true
  featureNamesIn := none
  predictRow := fun _ => 1
  predictProbaRow := fun _ => [7, 2]

/-- A concrete storage environment: one local artifact for `churn_model`. -/
def envW : Storage where
  localArtifact := fun n => if n = "churn_model" then some [1, 2, 3] else none
  mlflowModel := fun _ => none
  sha := fun _ => "0123456789abcdef"
  deserialize := fun _ => mW

/-- The empty service state. -/
def σW : MSState := ⟨[], []⟩

/-- The service state after the first load of `churn_model` from `envW`. -/
def σ1W : MSState :=
  ⟨[("churn_model", mW)], [("churn_model", "0123456789abcdef")]⟩

/-- A complete feature map for `churn_model`, in schema order. -/
def featsW : List (String × ℚ) :=
  [("age", 30), ("tenure", 5), ("usage_frequency", 1), ("support_tickets", 0),
   ("last_purchase_days", 10), ("subscription_tier", 2),
   ("contract_length", 12), ("payment_delay", 0)]

/-! ## Theorems: authenticator and access policy -/

/-- Claim C1: for every bearer token whose header algorithm is not exactly
RS256 (including none and HS256), `get_current_user` fails with HTTP 401
Unauthorized — the specific algorithm-rejection error — and never returns a
claim set, regardless of the outcome the signature verification would have
had. -/
theorem C1_nonRS256_unauthorized (h : TokenHeader) (cache : Option JwksBody)
    (dec : Except String Payload) (halg : h.alg ≠ some "RS256") :
    get_current_user h cache dec =
      .error ⟨401,
        "Could not validate credentials: Invalid algorithm. Strict RS256 enforcement applied."⟩ := by
  simp only [get_current_user, authInner, if_pos halg]
  rfl

/-- Witness for C1 at a concrete input: a token with header algorithm
`none`, a populated decode outcome that would otherwise verify. -/
theorem C1_nonRS256_unauthorized_witness :
    get_current_user ⟨some "none", some "kid1"⟩ none
        (.ok ⟨some "user-1", none, none, none⟩) =
      .error ⟨401,
        "Could not validate credentials: Invalid algorithm. Strict RS256 enforcement applied."⟩ :=
  C1_nonRS256_unauthorized ⟨some "none", some "kid1"⟩ none
    (.ok ⟨some "user-1", none, none, none⟩) (by decide)

/-- Claim C2 counterexample: two failing authentication attempts (wrong
algorithm vs. missing kid) produce 401 errors whose client-visible details
differ and each carries the internal failure reason appended to the generic
text, so the externally observable outcomes are not equal and the message is
not the bare generic text. -/
theorem C2_counterexample :
    get_current_user ⟨some "HS256", some "kid1"⟩ none (.error "bad signature") =
      .error ⟨401,
        "Could not validate credentials: Invalid algorithm. Strict RS256 enforcement applied."⟩
    ∧ get_current_user ⟨some "RS256", none⟩ none (.error "bad signature") =
      .error ⟨401, "Could not validate credentials: Missing kid in token header."⟩
    ∧ get_current_user ⟨some "HS256", some "kid1"⟩ none (.error "bad signature") ≠
      get_current_user ⟨some "RS256", none⟩ none (.error "bad signature")
    ∧ ("Could not validate credentials: Invalid algorithm. Strict RS256 enforcement applied."
        ≠ "Could not validate credentials") := by
  refine ⟨rfl, rfl, ?_, by decide⟩
  intro hcontra
  rw [show get_current_user ⟨some "HS256", some "kid1"⟩ none (.error "bad signature") =
      .error ⟨401,
        "Could not validate credentials: Invalid algorithm. Strict RS256 enforcement applied."⟩
      from rfl,
    show get_current_user ⟨some "RS256", none⟩ none (.error "bad signature") =
      .error ⟨401, "Could not validate credentials: Missing kid in token header."⟩
      from rfl] at hcontra
  injection hcontra with hmm
  injection hmm with hs hd
  exact absurd hd (by decide)

/-- Claim C2 as amended: every failing authentication attempt yields status
401 and a detail that begins with the generic text
`Could not validate credentials: `; the suffix carries the internal failure
reason, so details may differ between failure causes. -/
theorem C2_amended_uniform_401_prefix (h : TokenHeader)
    (cache : Option JwksBody) (dec : Except String Payload) (e : AuthError)
    (he : get_current_user h cache dec = .error e) :
    e.status = 401 ∧
      ∃ m, e.detail = String.append "Could not validate credentials: " m := by
  unfold get_current_user at he
  cases hi : authInner h cache dec with
  | ok p => rw [hi] at he; exact absurd he (by simp)
  | error m =>
    rw [hi] at he
    injection he with hee
    subst hee
    exact ⟨rfl, ⟨m, rfl⟩⟩

/-- Witness for the amended C2 at a concrete failing input. -/
theorem C2_amended_uniform_401_prefix_witness :
    (AuthError.mk 401
        "Could not validate credentials: Invalid algorithm. Strict RS256 enforcement applied.").status
      = 401 ∧
    ∃ m, (AuthError.mk 401
        "Could not validate credentials: Invalid algorithm. Strict RS256 enforcement applied.").detail
      = String.append "Could not validate credentials: " m :=
  C2_amended_uniform_401_prefix ⟨some "HS256", some "kid1"⟩ none
    (.error "bad signature") _ rfl

/-- Claim C7: for every token whose header kid is absent, or whose kid
matches no key in the cached key set (in particular when the cache is
empty), `get_current_user` fails with HTTP 401 and never produces a claim
set. -/
theorem C7_unmatched_kid_unauthorized (h : TokenHeader)
    (cache : Option JwksBody) (dec : Except String Payload)
    (hk : h.kid = none ∨ ∃ k, h.kid = some k ∧ findKey cache k = none) :
    fails401 (get_current_user h cache dec) = true := by
  rcases hk with hk | ⟨k, hk, hfind⟩
  · by_cases halg : h.alg = some "RS256" <;>
      simp [get_current_user, authInner, fails401, hk, halg]
  · by_cases halg : h.alg = some "RS256" <;> by_cases hke : k = "" <;>
      simp [get_current_user, authInner, fails401, hk, halg, hke, hfind]

/-- Witness for C7 at a concrete input: a kid present in the header but
absent from the (nonempty) cached key set. -/
theorem C7_unmatched_kid_unauthorized_witness :
    fails401 (get_current_user ⟨some "RS256", some "kid2"⟩
      (some [⟨some "kid1"⟩]) (.ok ⟨some "user-1", none, none, none⟩)) = true :=
  C7_unmatched_kid_unauthorized ⟨some "RS256", some "kid2"⟩
    (some [⟨some "kid1"⟩]) (.ok ⟨some "user-1", none, none, none⟩)
    (Or.inr ⟨"kid2", rfl, by decide⟩)

/-- Claim C6: for every key-set fetch that fails (raised network error or
non-success HTTP status), `get_jwks` starting from an empty cache leaves the
cache empty and returns empty. It is a total function, so no failure
propagates past its boundary. -/
theorem C6_fetch_failure_leaves_cache_empty (f : FetchResult)
    (hf : ∀ b, f ≠ FetchResult.success b) :
    get_jwks none f = (none, none) := by
  cases f with
  | success b => exact absurd rfl (hf b)
  | httpError c => rfl
  | exn m => rfl

/-- Witness for C6 at a concrete input: a 500 response. -/
theorem C6_fetch_failure_leaves_cache_empty_witness :
    get_jwks none (.httpError 500) = (none, none) :=
  C6_fetch_failure_leaves_cache_empty (.httpError 500) (by intro b; simp)

/-- Claim C5 counterexample: a claim set whose `user_role` is present but
empty while `role` is `admin`. The code resolves `admin` (Python truthiness
makes the empty string fall through), whereas the claimed resolution order
(`user_role` if present) would resolve the empty string. -/
theorem C5_counterexample :
    resolve_role ⟨some "user-1", some "", some "admin", none⟩ = "admin"
    ∧ resolve_role_spec ⟨some "user-1", some "", some "admin", none⟩ = ""
    ∧ resolve_role ⟨some "user-1", some "", some "admin", none⟩ ≠
      resolve_role_spec ⟨some "user-1", some "", some "admin", none⟩ := by
  refine ⟨rfl, rfl, by decide⟩

/-- Claim C5 as amended: the effective role is the `user_role` claim if
present and non-empty, else the `role` claim if present and non-empty, else
the nested `app_metadata` role if present (even empty), else the literal
`viewer`; a resolution equal to `authenticated` is replaced by `viewer`
before the membership check, which accepts exactly the allowed roles. -/
theorem C5_amended_role_resolution (u : Payload) (allowed : List String) :
    (∀ s, u.user_role = some s → s ≠ "" → resolve_role u = s)
    ∧ (∀ s, (u.user_role = none ∨ u.user_role = some "") →
        u.role = some s → s ≠ "" → resolve_role u = s)
    ∧ ((u.user_role = none ∨ u.user_role = some "") →
        (u.role = none ∨ u.role = some "") →
        ∀ s, u.app_metadata_role = some s → resolve_role u = s)
    ∧ ((u.user_role = none ∨ u.user_role = some "") →
        (u.role = none ∨ u.role = some "") →
        u.app_metadata_role = none → resolve_role u = "viewer")
    ∧ (resolve_role u = "authenticated" → effective_role u = "viewer")
    ∧ (effective_role u ∈ allowed → roleChecker_call allowed u = .ok u)
    ∧ (effective_role u ∉ allowed →
        roleChecker_call allowed u = .error ⟨403, effective_role u, allowed⟩) := by
  refine ⟨?_, ?_, ?_, ?_, ?_, ?_, ?_⟩
  · intro s hs hne
    simp [resolve_role, pyOrStr, hs, hne]
  · intro s hu hr hne
    rcases hu with hu | hu <;> simp [resolve_role, pyOrStr, hu, hr, hne]
  · intro hu hr s ha
    rcases hu with hu | hu <;> rcases hr with hr | hr <;>
      simp [resolve_role, pyOrStr, hu, hr, ha]
  · intro hu hr ha
    rcases hu with hu | hu <;> rcases hr with hr | hr <;>
      simp [resolve_role, pyOrStr, hu, hr, ha]
  · intro hres
    simp [effective_role, hres]
  · intro hmem
    simp [roleChecker_call, hmem]
  · intro hmem
    simp [roleChecker_call, hmem]

/-- Witness for the amended C5 at a concrete input: empty `user_role` falls
through to the `role` claim. -/
theorem C5_amended_role_resolution_witness :
    resolve_role ⟨some "user-1", some "", some "admin", none⟩ = "admin" :=
  (C5_amended_role_resolution ⟨some "user-1", some "", some "admin", none⟩
      ["admin"]).2.1 "admin" (Or.inr rfl) rfl (by decide)

/-! ## Helper lemmas for the fold that embeds Python `max()` -/

theorem foldl_max_result_mem (xs : List ℚ) (a : ℚ) :
    xs.foldl max a = a ∨ xs.foldl max a ∈ xs := by
  induction xs generalizing a with
  | nil => exact Or.inl rfl
  | cons y ys ih =>
    rcases ih (max a y) with hh | hh
    · rcases max_choice a y with hc | hc
      · exact Or.inl (by simp only [List.foldl_cons]; rw [hh, hc])
      · refine Or.inr ?_
        simp only [List.foldl_cons]
        rw [hh, hc]
        exact List.mem_cons_self y ys
    · refine Or.inr ?_
      simp only [List.foldl_cons]
      exact List.mem_cons_of_mem y hh

theorem le_foldl_max (xs : List ℚ) (a : ℚ) :
    a ≤ xs.foldl max a ∧ ∀ x ∈ xs, x ≤ xs.foldl max a := by
  induction xs generalizing a with
  | nil => exact ⟨le_refl a, by simp⟩
  | cons y ys ih =>
    refine ⟨?_, ?_⟩
    · simp only [List.foldl_cons]
      exact le_trans (le_max_left a y) (ih (max a y)).1
    · intro x hx
      simp only [List.foldl_cons]
      rcases List.mem_cons.mp hx with rfl | hx
      · exact le_trans (le_max_right a x) (ih (max a x)).1
      · exact (ih (max a y)).2 x hx

/-- Characterisation of `pyMax` on a nonempty list: it is a member and an
upper bound, i.e. exactly Python `max()`. -/
theorem pyMax_spec (l : List ℚ) (hl : l ≠ []) :
    pyMax l ∈ l ∧ ∀ x ∈ l, x ≤ pyMax l := by
  cases l with
  | nil => exact absurd rfl hl
  | cons x xs =>
    refine ⟨?_, ?_⟩
    · rcases foldl_max_result_mem xs x with hh | hh
      · rw [show pyMax (x :: xs) = xs.foldl max x from rfl, hh]
        exact List.mem_cons_self x xs
      · exact List.mem_cons_of_mem x hh
    · intro y hy
      rcases List.mem_cons.mp hy with rfl | hy
      · exact (le_foldl_max xs y).1
      · exact (le_foldl_max xs x).2 y hy

/-! ## Theorems: model cache, prediction and decision logging -/

/-- Claim C4: after a first successful local load (which performs one
storage read and stores the digest of the exact artifact bytes), a second
call for the same name returns the cached handle with the state — hence the
stored digest — unchanged and performs zero storage reads; in general any
cached name is returned unconditionally with no storage access. -/
theorem C4_load_model_idempotent (env : Storage) (σ : MSState)
    (name : String) (bytes : List Nat)
    (hmiss : σ.loaded.lookup name = none)
    (hart : env.localArtifact name = some bytes) :
    ∃ σ₁ : MSState,
      load_model env σ name = .ok (env.deserialize bytes, σ₁, 1)
      ∧ σ₁.hashes.lookup name = some (env.sha bytes)
      ∧ load_model env σ₁ name = .ok (env.deserialize bytes, σ₁, 0)
      ∧ ∀ (τ : MSState) (m : MLModel), τ.loaded.lookup name = some m →
          load_model env τ name = .ok (m, τ, 0) := by
  refine ⟨⟨(name, env.deserialize bytes) :: σ.loaded,
          (name, env.sha bytes) :: σ.hashes⟩, ?_, ?_, ?_, ?_⟩
  · simp [load_model, hmiss, hart]
  · simp [List.lookup]
  · simp [load_model, List.lookup]
  · intro τ m hm
    simp [load_model, hm]

/-- Witness for C4: concrete storage holding one artifact for
`churn_model`, starting from the empty service state. -/
theorem C4_load_model_idempotent_witness :
    ∃ σ₁ : MSState,
      load_model envW σW "churn_model" = .ok (envW.deserialize [1, 2, 3], σ₁, 1)
      ∧ σ₁.hashes.lookup "churn_model" = some (envW.sha [1, 2, 3])
      ∧ load_model envW σ₁ "churn_model" = .ok (envW.deserialize [1, 2, 3], σ₁, 0)
      ∧ ∀ (τ : MSState) (m : MLModel), τ.loaded.lookup "churn_model" = some m →
          load_model envW τ "churn_model" = .ok (m, τ, 0) :=
  C4_load_model_idempotent envW σW "churn_model" [1, 2, 3] rfl rfl

/-- Claim C3: for a model name with a declared FeatureSchema and an input
map missing at least one required feature, a loadable model
notwithstanding, `predict` fails with `SchemaValidationFailed` carrying the
names of every missing required feature, and never emits a prediction. -/
theorem C3_missing_features_fail_all_named (env : Storage) (σ : MSState)
    (name : String) (req : List String) (features : List (String × ℚ))
    (log : Except String Unit) (m : MLModel) (σ₁ : MSState) (k : Nat)
    (hschema : featureSchemas name = some req)
    (hload : load_model env σ name = .ok (m, σ₁, k))
    (hmiss : req.filter (fun f => (features.lookup f).isNone) ≠ []) :
    predict env σ name features log =
      .error (.schemaValidationFailed
        (req.filter (fun f => (features.lookup f).isNone)))
    ∧ ∀ r, predict env σ name features log ≠ .ok r := by
  have h1 : predict env σ name features log =
      .error (.schemaValidationFailed
        (req.filter (fun f => (features.lookup f).isNone))) := by
    unfold predict
    rw [hload]
    simp [buildDf, hschema, hmiss]
  refine ⟨h1, ?_⟩
  intro r hr
  rw [h1] at hr
  exact absurd hr (by simp)

/-- Witness for C3: the churn-model schema with only `age` supplied reports
all seven other required features. -/
theorem C3_missing_features_fail_all_named_witness :
    predict envW σW "churn_model" [("age", 30)] (.ok ()) =
      .error (.schemaValidationFailed
        ["tenure", "usage_frequency", "support_tickets",
         "last_purchase_days", "subscription_tier", "contract_length",
         "payment_delay"]) :=
  (C3_missing_features_fail_all_named envW σW "churn_model"
    ["age", "tenure", "usage_frequency", "support_tickets",
     "last_purchase_days", "subscription_tier", "contract_length",
     "payment_delay"] [("age", 30)] (.ok ()) mW σ1W 1 rfl rfl
    (by decide)).1

/-- Claim C10: for a model name with a declared FeatureSchema, two input
maps that agree on every required feature produce identical `predict`
outcomes — features outside the schema are discarded before inference and
cannot influence the result. -/
theorem C10_nonschema_features_no_influence (env : Storage) (σ : MSState)
    (name : String) (req : List String) (f₁ f₂ : List (String × ℚ))
    (log : Except String Unit)
    (hschema : featureSchemas name = some req)
    (hagree : ∀ f ∈ req, f₁.lookup f = f₂.lookup f) :
    predict env σ name f₁ log = predict env σ name f₂ log := by
  have hmiss : req.filter (fun f => (f₁.lookup f).isNone) =
      req.filter (fun f => (f₂.lookup f).isNone) := by
    apply List.filter_congr
    intro f hf
    rw [hagree f hf]
  have hord : req.map (fun f => (f, (f₁.lookup f).getD 0)) =
      req.map (fun f => (f, (f₂.lookup f).getD 0)) := by
    apply List.map_congr_left
    intro f hf
    rw [hagree f hf]
  have hdf : ∀ m : MLModel, buildDf m name f₁ = buildDf m name f₂ := by
    intro m
    simp only [buildDf, hschema, hmiss, hord]
  unfold predict
  cases hload : load_model env σ name with
  | error msg => rfl
  | ok t =>
    obtain ⟨m, σ₁, k⟩ := t
    dsimp only
    rw [hdf m]

/-- Witness for C10: a feature map with an extra non-schema feature and a
perturbed value of another non-schema feature yields the same outcome as
the bare schema features. -/
theorem C10_nonschema_features_no_influence_witness :
    predict envW σW "churn_model"
        (("extra_feature", 999) :: featsW ++ [("other", 5)]) (.ok ()) =
      predict envW σW "churn_model" featsW (.ok ()) :=
  C10_nonschema_features_no_influence envW σW "churn_model"
    ["age", "tenure", "usage_frequency", "support_tickets",
     "last_purchase_days", "subscription_tier", "contract_length",
     "payment_delay"] (("extra_feature", 999) :: featsW ++ [("other", 5)])
    featsW (.ok ()) rfl (by decide)

/-- Claim C9: any failure in the decision-logging path is swallowed:
`log_decision` returns successfully for every engine configuration and
write outcome (no store configured included), and the outcome of `predict`
— result and success alike — is independent of what the logging handoff
raises. -/
theorem C9_logging_failure_invisible :
    (∀ (hasEngine : Bool) (w : Except String Unit),
        log_decision hasEngine w = .ok ())
    ∧ ∀ (env : Storage) (σ : MSState) (name : String)
        (feats : List (String × ℚ)) (e₁ e₂ : Except String Unit),
        predict env σ name feats e₁ = predict env σ name feats e₂ := by
  refine ⟨?_, ?_⟩
  · intro hasEngine w
    cases hasEngine <;> cases w <;> rfl
  · intro env σ name feats e₁ e₂
    rfl

/-- Claim C8: on every successful `predict`, a model exposing the
probability interface yields an integer class code as prediction, the
probability at class index 1 when more than one class is reported (the sole
probability when exactly one is), and as confidence a reported probability
that bounds all reported probabilities (the maximum); a model without the
probability interface yields its raw predicted value with probability and
confidence both the sentinel 1. -/
theorem C8_classifier_regressor_result_shape (env : Storage) (σ : MSState)
    (name : String) (feats : List (String × ℚ)) (log : Except String Unit)
    (m : MLModel) (σ₁ : MSState) (k : Nat) (df : List (String × ℚ))
    (r : PredictionResult) (σ₂ : MSState)
    (hload : load_model env σ name = .ok (m, σ₁, k))
    (hdf : buildDf m name feats = .ok df)
    (hpred : predict env σ name feats log = .ok (r, σ₂)) :
    (m.hasPredictProba = true →
      (∃ c : ℤ, r.prediction = (c : ℚ))
      ∧ r.prediction = ((pyInt (m.predictRow df) : ℤ) : ℚ)
      ∧ ((m.predictProbaRow df).length > 1 →
          r.probability = (m.predictProbaRow df).getD 1 0)
      ∧ ((m.predictProbaRow df).length = 1 →
          r.probability = (m.predictProbaRow df).getD 0 0)
      ∧ (m.predictProbaRow df ≠ [] →
          r.confidence ∈ m.predictProbaRow df
          ∧ ∀ p ∈ m.predictProbaRow df, p ≤ r.confidence))
    ∧ (m.hasPredictProba = false →
        r.prediction = m.predictRow df
        ∧ r.probability = 1 ∧ r.confidence = 1) := by
  unfold predict at hpred
  rw [hload] at hpred
  dsimp only at hpred
  rw [hdf] at hpred
  dsimp only [handleLogEffect] at hpred
  cases hm : m.hasPredictProba with
  | true =>
    rw [hm] at hpred
    simp only [if_pos] at hpred
    injection hpred with hp
    injection hp with hr hσ
    subst hr
    refine ⟨fun _ => ⟨⟨pyInt (m.predictRow df), rfl⟩, rfl, ?_, ?_, ?_⟩,
      fun hcontra => absurd hcontra (by simp)⟩
    · intro hlen
      simp [hlen]
    · intro hlen
      have hnlt : ¬ (m.predictProbaRow df).length > 1 := by omega
      simp [hnlt]
    · intro hne
      exact pyMax_spec (m.predictProbaRow df) hne
  | false =>
    rw [hm] at hpred
    simp only [Bool.false_eq_true, if_neg, if_false] at hpred
    injection hpred with hp
    injection hp with hr hσ
    subst hr
    exact ⟨fun hcontra => absurd hcontra (by simp),
      fun _ => ⟨rfl, rfl, rfl⟩⟩

/-- Witness for C8 at the concrete classifier environment: class code 1,
index-1 probability 2, confidence 7 (the row maximum). -/
theorem C8_classifier_regressor_result_shape_witness :
    (mW.hasPredictProba = true →
      (∃ c : ℤ,
        (PredictionResult.mk 1 2 7 "churn_model" "01234567"
          none none).prediction = (c : ℚ))
      ∧ (PredictionResult.mk 1 2 7 "churn_model" "01234567"
          none none).prediction = ((pyInt (mW.predictRow featsW) : ℤ) : ℚ)
      ∧ ((mW.predictProbaRow featsW).length > 1 →
          (PredictionResult.mk 1 2 7 "churn_model" "01234567"
            none none).probability = (mW.predictProbaRow featsW).getD 1 0)
      ∧ ((mW.predictProbaRow featsW).length = 1 →
          (PredictionResult.mk 1 2 7 "churn_model" "01234567"
            none none).probability = (mW.predictProbaRow featsW).getD 0 0)
      ∧ (mW.predictProbaRow featsW ≠ [] →
          (PredictionResult.mk 1 2 7 "churn_model" "01234567"
            none none).confidence ∈ mW.predictProbaRow featsW
          ∧ ∀ p ∈ mW.predictProbaRow featsW,
              p ≤ (PredictionResult.mk 1 2 7 "churn_model"
                "01234567" none none).confidence))
    ∧ (mW.hasPredictProba = false →
        (PredictionResult.mk 1 2 7 "churn_model" "01234567"
          none none).prediction = mW.predictRow featsW
        ∧ (PredictionResult.mk 1 2 7 "churn_model" "01234567"
            none none).probability = 1
        ∧ (PredictionResult.mk 1 2 7 "churn_model" "01234567"
            none none).confidence = 1) :=
  C8_classifier_regressor_result_shape envW σW "churn_model" featsW (.ok ())
    mW σ1W 1 featsW
    (PredictionResult.mk 1 2 7 "churn_model" "01234567" none none)
    σ1W rfl rfl (by rfl)
